import Mathlib

set_option linter.unusedVariables false

/-!
Shallow embedding of the TCP port-scan engine of `src/aio_cli/network.py`
(`_resolve_host` and the `port_scan` command), together with an instrumented
event trace recording resolver calls, probe attempts and socket lifecycle, so
that resource and "no network I/O" properties can be stated.

The network environment is passed in explicitly:
* a `Resolver` models `socket.gethostbyname` (success with an IP string, or a
  `socket.gaierror` carrying a message);
* an `Oracle` models the behaviour of `sock.connect_ex((target_ip, port))`
  under the configured per-port timeout: either the call returns an error code
  (`0` meaning the connection was established before the timeout) or it raises
  a `socket.error` (which subsumes `socket.timeout` in Python).
-/

/-- Outcome of one `sock.connect_ex((ip, port))` call in the source
(`network.py` lines 58-64): the call either returns an integer error code
(`0` = connection established before the per-port timeout; nonzero = refused,
timed out, unreachable, ...) or raises `socket.error`. -/
inductive ConnectAttempt : Type where
  | returns (code : Int)
  | raises
deriving DecidableEq, Repr

/-- Environment model of `socket.gethostbyname` (`_resolve_host`, lines 24-31):
maps a host string to a resolved IP string or a `socket.gaierror` message. -/
def Resolver : Type := String → Except String String

/-- Environment model of the network as seen by `connect_ex`: a fixed mapping
from (resolved IP, port) to the outcome of the bounded-timeout connect. -/
def Oracle : Type := String → Int → ConnectAttempt

/-- Observable events of one scan run: a resolver invocation, a probe attempt
on a port, and the opening/closing of a TCP socket. -/
inductive Event : Type where
  | resolveCall
  | probeAttempt (port : Int)
  | sockOpen
  | sockClose
deriving DecidableEq, Repr

/-- Result of the scan as observed by the caller: either the resolution failed
(`network.py` lines 50-52, exit code 1) or the scan completed with a list of
open ports (lines 66-70). -/
inductive ScanOutput : Type where
  | resolveFailure (msg : String)
  | done (openPorts : List Int)
deriving DecidableEq, Repr

/-- Python `range(start_port, end_port + 1)` over machine integers
(`network.py` line 55): the ascending list `start_port, ..., end_port`,
empty when `start_port > end_port`. -/
def portRange (startPort endPort : Int) : List Int :=
  (List.range (endPort + 1 - startPort).toNat).map (fun i : Nat => startPort + (i : Int))

/-- Condition under which the source appends the port to `open_ports`
(line 60: `if result == 0`); a raised `socket.error` is caught and the
port is not appended (lines 62-64). -/
def openPred (oracle : Oracle) (ip : String) (port : Int) : Bool :=
  match oracle ip port with
  | .returns code => code == 0
  | .raises => false

/-- The per-port loop of `port_scan` (`network.py` lines 55-64), with its
event trace.  Each iteration opens one socket (the `with` statement), attempts
the connect, appends the port to `open_ports` when `connect_ex` returned `0`,
swallows any `socket.error`, and closes the socket on exit from the `with`
block on every path. -/
def scanLoopT (oracle : Oracle) (ip : String) :
    List Int → List Int → List Int × List Event
  | [], openPorts => (openPorts, [])
  | port :: rest, openPorts =>
      let evs := [Event.sockOpen, Event.probeAttempt port, Event.sockClose]
      let openPorts' :=
        match oracle ip port with
        | .returns code => if code == 0 then openPorts ++ [port] else openPorts
        | .raises => openPorts
      let r := scanLoopT oracle ip rest openPorts'
      (r.1, evs ++ r.2)

/-- The `port_scan` command (`network.py` lines 35-70) as a function of the
network environment, paired with its event trace.  The host is resolved once;
a `socket.gaierror` aborts the scan with exit code 1 before any port is
probed; otherwise every port of `range(start_port, end_port + 1)` is probed
sequentially and the collected `open_ports` list is reported. -/
def port_scan (resolver : Resolver) (oracle : Oracle) (host : String)
    (startPort endPort : Int) : ScanOutput × List Event :=
  match resolver host with
  | .error msg => (.resolveFailure msg, [.resolveCall])
  | .ok ip =>
      let r := scanLoopT oracle ip (portRange startPort endPort) []
      (.done r.1, .resolveCall :: r.2)

/-- Process exit code of the CLI run: `typer.Exit(code=1)` on resolution
failure (line 52), normal termination (exit 0) otherwise. -/
def exitCode : ScanOutput → Nat
  | .resolveFailure _ => 1
  | .done _ => 0

/-- The user-visible status line of the run (`network.py` lines 51 and 66-70). -/
def report : ScanOutput → String
  | .resolveFailure msg => "Failed to resolve host: " ++ msg
  | .done openPorts =>
      if openPorts.isEmpty then "No open ports found in the specified range."
      else "Open ports: " ++ String.intercalate ", " (openPorts.map toString)

/-- Recognizer for socket-open events. -/
def isSockOpen : Event → Bool
  | .sockOpen => true
  | _ => false

/-- Recognizer for socket-close events. -/
def isSockClose : Event → Bool
  | .sockClose => true
  | _ => false

/-- Recognizer for resolver invocations. -/
def isResolveCall : Event → Bool
  | .resolveCall => true
  | _ => false

/-- The ports probed during a run, in dispatch order, read off the trace. -/
def probedPorts : List Event → List Int
  | [] => []
  | .probeAttempt p :: rest => p :: probedPorts rest
  | _ :: rest => probedPorts rest

/-- Validity invariant of a `ScanRequest`: both bounds in `[1, 65535]` and
the range ordered. -/
def ValidRange (startPort endPort : Int) : Prop :=
  1 ≤ startPort ∧ startPort ≤ endPort ∧ endPort ≤ 65535

instance (s e : Int) : Decidable (ValidRange s e) := by
  unfold ValidRange; infer_instance

/-- Modelled from the spec: the source scanner is strictly sequential and has
no concurrency parameter, so the bounded worker pool of spec sections 4.3/5 is
missing from the code.  A pool of size `c ≥ 1` dispatches one probe per port
and completes each dispatched probe exactly once, so an achievable completion
order is a permutation of the dispatched ports (for `c = 1` it is the dispatch
order itself, which is also a permutation). -/
def PoolSchedule (c : Nat) (ports sched : List Int) : Prop :=
  1 ≤ c ∧ sched.Perm ports

instance (c : Nat) (ports sched : List Int) :
    Decidable (PoolSchedule c ports sched) := by
  unfold PoolSchedule; infer_instance

/-- Modelled from the spec: aggregation of the worker pool of spec sections
4.3/5, missing from the code.  Outcomes are collected in completion order
(`sched`), a port whose probe is open joins the open-set, and the final
open-port sequence is sorted ascending after all probes complete. -/
def scanWithPool (oracle : Oracle) (ip : String) (sched : List Int) : List Int :=
  List.insertionSort (fun a b => a ≤ b) (sched.filter (openPred oracle ip))

/-- Fixture: a resolver that resolves every host to 127.0.0.1. -/
def rOk : Resolver := fun _ => .ok "127.0.0.1"

/-- Fixture: a resolver for which every lookup fails. -/
def rFail : Resolver := fun _ => .error "Name or service not known"

/-- Fixture: a network where only port 4 is open, port 5 raises
`socket.error`, and every other port is refused (errno 111). -/
def oEx : Oracle := fun _ p =>
  if p == 4 then .returns 0 else if p == 5 then .raises else .returns 111

/-- Fixture: a network where every connect attempt is refused. -/
def oAllClosed : Oracle := fun _ _ => .returns 111

/-- Fixture: a network agreeing with `oEx` on ports up to 3 and differing
above (used to exercise determinism as dependence on the probed range only). -/
def oAgree : Oracle := fun ip p => if p ≤ 3 then oEx ip p else .raises

/-! ### Helper lemmas about the embedding -/

theorem portRange_length (s e : Int) :
    (portRange s e).length = (e + 1 - s).toNat := by
  rw [portRange, List.length_map, List.length_range]

theorem portRange_eq_nil {s e : Int} (h : e < s) : portRange s e = [] := by
  have h0 : (e + 1 - s).toNat = 0 := by omega
  simp [portRange, h0]

theorem portRange_single (s : Int) : portRange s s = [s] := by
  have h1 : (s + 1 - s).toNat = 1 := by omega
  rw [portRange, h1]
  simp [List.range_succ]

theorem mem_portRange {s e p : Int} : p ∈ portRange s e ↔ s ≤ p ∧ p ≤ e := by
  simp only [portRange, List.mem_map, List.mem_range]
  constructor
  · rintro ⟨i, hi, rfl⟩
    omega
  · rintro ⟨h1, h2⟩
    exact ⟨(p - s).toNat, by omega, by omega⟩

theorem portRange_pairwise (s e : Int) : (portRange s e).Pairwise (· < ·) := by
  rw [portRange, List.pairwise_map]
  exact (List.pairwise_lt_range _).imp (fun h => by omega)

theorem scanLoopT_fst (oracle : Oracle) (ip : String) (ports acc : List Int) :
    (scanLoopT oracle ip ports acc).1 = acc ++ ports.filter (openPred oracle ip) := by
  induction ports generalizing acc with
  | nil => simp [scanLoopT]
  | cons p rest ih =>
      simp only [scanLoopT, List.filter_cons]
      cases h : oracle ip p with
      | returns code =>
          by_cases hc : (code == 0) = true
          · simp [openPred, h, hc, ih, List.append_assoc]
          · simp [openPred, h, hc, ih]
      | raises => simp [openPred, h, ih]

theorem scanLoopT_probed (oracle : Oracle) (ip : String) (ports acc : List Int) :
    probedPorts (scanLoopT oracle ip ports acc).2 = ports := by
  induction ports generalizing acc with
  | nil => simp [scanLoopT, probedPorts]
  | cons p rest ih =>
      simp only [scanLoopT]
      cases h : oracle ip p <;> simp [probedPorts, ih]

theorem scanLoopT_countOpen (oracle : Oracle) (ip : String) (ports acc : List Int) :
    ((scanLoopT oracle ip ports acc).2).countP isSockOpen = ports.length := by
  induction ports generalizing acc with
  | nil => simp [scanLoopT]
  | cons p rest ih =>
      simp only [scanLoopT]
      cases h : oracle ip p <;>
        simp [List.countP_cons, isSockOpen, ih, Nat.add_comm]

theorem scanLoopT_countClose (oracle : Oracle) (ip : String) (ports acc : List Int) :
    ((scanLoopT oracle ip ports acc).2).countP isSockClose = ports.length := by
  induction ports generalizing acc with
  | nil => simp [scanLoopT]
  | cons p rest ih =>
      simp only [scanLoopT]
      cases h : oracle ip p <;>
        simp [List.countP_cons, isSockClose, ih, Nat.add_comm]

theorem scanLoopT_congr (o₁ o₂ : Oracle) (ip : String) (ports acc : List Int)
    (hagree : ∀ p ∈ ports, o₁ ip p = o₂ ip p) :
    scanLoopT o₁ ip ports acc = scanLoopT o₂ ip ports acc := by
  induction ports generalizing acc with
  | nil => rfl
  | cons p rest ih =>
      have hp : o₁ ip p = o₂ ip p := hagree p (List.mem_cons_self p rest)
      have hrest : ∀ q ∈ rest, o₁ ip q = o₂ ip q :=
        fun q hq => hagree q (List.mem_cons_of_mem p hq)
      simp only [scanLoopT, hp, ih _ hrest]

theorem portRange_filter_sorted (o : Oracle) (ip : String) (s e : Int) :
    ((portRange s e).filter (openPred o ip)).Sorted (· ≤ ·) :=
  ((portRange_pairwise s e).filter (openPred o ip)).imp le_of_lt

theorem scanWithPool_eq_filter (o : Oracle) (ip : String) (s e : Int)
    (sched : List Int) (h : sched.Perm (portRange s e)) :
    scanWithPool o ip sched = (portRange s e).filter (openPred o ip) := by
  have hperm : (scanWithPool o ip sched).Perm ((portRange s e).filter (openPred o ip)) :=
    (List.perm_insertionSort _ _).trans (h.filter _)
  exact List.eq_of_perm_of_sorted hperm (List.sorted_insertionSort _ _)
    (portRange_filter_sorted o ip s e)

theorem port_scan_fail (resolver : Resolver) (oracle : Oracle) (host msg : String)
    (s e : Int) (hres : resolver host = .error msg) :
    port_scan resolver oracle host s e = (.resolveFailure msg, [.resolveCall]) := by
  simp [port_scan, hres]

theorem port_scan_ok (resolver : Resolver) (oracle : Oracle) (host ip : String)
    (s e : Int) (hres : resolver host = .ok ip) :
    port_scan resolver oracle host s e =
      (.done ((portRange s e).filter (openPred oracle ip)),
       .resolveCall :: (scanLoopT oracle ip (portRange s e) []).2) := by
  simp [port_scan, hres, scanLoopT_fst]

/-! ### Claim theorems -/

/-- C1: for every request with startPort ≤ endPort (and both bounds in the
valid port interval), the open-port sequence reported by the scan is strictly
ascending, hence duplicate-free, and every element lies within
[startPort, endPort]. -/
theorem open_ports_ascending_within_range
    (resolver : Resolver) (oracle : Oracle) (host : String) (s e : Int)
    (opens : List Int) (hv : ValidRange s e)
    (hout : (port_scan resolver oracle host s e).1 = .done opens) :
    opens.Pairwise (· < ·) ∧ opens.Nodup ∧ ∀ p ∈ opens, s ≤ p ∧ p ≤ e := by
  cases hres : resolver host with
  | error msg =>
      rw [port_scan_fail resolver oracle host msg s e hres] at hout
      exact absurd hout (by simp)
  | ok ip =>
      rw [port_scan_ok resolver oracle host ip s e hres] at hout
      have hopens : (portRange s e).filter (openPred oracle ip) = opens := by
        simpa using hout
      subst hopens
      refine ⟨(portRange_pairwise s e).filter _, ?_, ?_⟩
      · exact ((portRange_pairwise s e).filter _).imp (fun h => ne_of_lt h)
      · intro p hp
        exact mem_portRange.mp (List.mem_of_mem_filter hp)

/-- C1 witness: scanning ports 1-6 against a network where only port 4 is
open yields exactly [4], which is ascending, duplicate-free and in range. -/
theorem open_ports_ascending_within_range_witness :
    ([4] : List Int).Pairwise (· < ·) ∧ ([4] : List Int).Nodup ∧
      ∀ p ∈ ([4] : List Int), 1 ≤ p ∧ p ≤ 6 :=
  open_ports_ascending_within_range rOk oEx "scanme.local" 1 6 [4]
    (by decide) (by decide)

/-- C2 counterexample: with startPort=100 > endPort=50 the code raises no
error at all: the run completes with exit code 0 reporting an empty open-port
list, and the host IS resolved (exactly one resolver call in the trace).
This falsifies "fails with InvalidRangeError before any network I/O is
performed: no host resolution" — the source has no range validation. -/
theorem no_range_validation_counterexample :
    port_scan rOk oAllClosed "example.com" 100 50 = (.done [], [.resolveCall]) ∧
    exitCode (port_scan rOk oAllClosed "example.com" 100 50).1 = 0 ∧
    (port_scan rOk oAllClosed "example.com" 100 50).2.countP isResolveCall = 1 := by
  refine ⟨by decide, by decide, by decide⟩

/-- C2 (amended): the code performs no range validation.  For every request
with startPort > endPort the host is still resolved (one resolver call, i.e.
network I/O does occur), zero ports are probed, and the run completes
successfully with exit code 0 and an empty open-port list; no
InvalidRangeError is raised anywhere. -/
theorem inverted_range_scans_nothing
    (resolver : Resolver) (oracle : Oracle) (host ip : String) (s e : Int)
    (hgt : e < s) (hres : resolver host = .ok ip) :
    port_scan resolver oracle host s e = (.done [], [.resolveCall]) ∧
    exitCode (port_scan resolver oracle host s e).1 = 0 ∧
    probedPorts (port_scan resolver oracle host s e).2 = [] ∧
    (port_scan resolver oracle host s e).2.countP isResolveCall = 1 := by
  have h0 := portRange_eq_nil hgt
  simp [port_scan_ok resolver oracle host ip s e hres, h0, scanLoopT, exitCode,
    probedPorts, isResolveCall, List.countP_cons]

/-- C2 amended witness: a run with startPort=100, endPort=50 against a
resolving host completes with exit 0, an empty result and one resolver call. -/
theorem inverted_range_scans_nothing_witness :
    port_scan rOk oAllClosed "example.org" 100 50 = (.done [], [.resolveCall]) ∧
    exitCode (port_scan rOk oAllClosed "example.org" 100 50).1 = 0 ∧
    probedPorts (port_scan rOk oAllClosed "example.org" 100 50).2 = [] ∧
    (port_scan rOk oAllClosed "example.org" 100 50).2.countP isResolveCall = 1 :=
  inverted_range_scans_nothing rOk oAllClosed "example.org" "127.0.0.1" 100 50
    (by decide) rfl

/-- C3: for every request whose host fails to resolve, the scan fails with a
single scan-level resolution failure (distinct constructor, exit code 1),
zero port probes are dispatched, zero sockets are opened, and the resolver is
consulted exactly once. -/
theorem resolution_failure_aborts
    (resolver : Resolver) (oracle : Oracle) (host msg : String) (s e : Int)
    (hres : resolver host = .error msg) :
    (port_scan resolver oracle host s e).1 = .resolveFailure msg ∧
    exitCode (port_scan resolver oracle host s e).1 = 1 ∧
    probedPorts (port_scan resolver oracle host s e).2 = [] ∧
    (port_scan resolver oracle host s e).2.countP isSockOpen = 0 ∧
    (port_scan resolver oracle host s e).2.countP isResolveCall = 1 := by
  simp [port_scan_fail resolver oracle host msg s e hres, exitCode, probedPorts,
    isSockOpen, isResolveCall, List.countP_cons]

/-- C3 witness: a failing lookup for ports 1-1024 aborts with exit 1, no
probes, no sockets, one resolver call. -/
theorem resolution_failure_aborts_witness :
    (port_scan rFail oEx "nohost.invalid" 1 1024).1 =
      .resolveFailure "Name or service not known" ∧
    exitCode (port_scan rFail oEx "nohost.invalid" 1 1024).1 = 1 ∧
    probedPorts (port_scan rFail oEx "nohost.invalid" 1 1024).2 = [] ∧
    (port_scan rFail oEx "nohost.invalid" 1 1024).2.countP isSockOpen = 0 ∧
    (port_scan rFail oEx "nohost.invalid" 1 1024).2.countP isResolveCall = 1 :=
  resolution_failure_aborts rFail oEx "nohost.invalid"
    "Name or service not known" 1 1024 rfl

/-- C4: for every request with startPort ≤ endPort that passes resolution, the
scan is exhaustive: the trace of probe attempts is exactly the ascending,
duplicate-free enumeration of [startPort, endPort] (so exactly one probe per
port, with no early termination whatever the probe outcomes are), and a
one-port range is probed exactly once. -/
theorem scan_exhaustive
    (resolver : Resolver) (oracle : Oracle) (host ip : String) (s e : Int)
    (hv : ValidRange s e) (hres : resolver host = .ok ip) :
    probedPorts (port_scan resolver oracle host s e).2 = portRange s e ∧
    (portRange s e).Nodup ∧
    (∀ p : Int, p ∈ portRange s e ↔ s ≤ p ∧ p ≤ e) ∧
    (portRange s e).length = (e + 1 - s).toNat ∧
    (s = e → probedPorts (port_scan resolver oracle host s e).2 = [s]) := by
  have hprobe : probedPorts (port_scan resolver oracle host s e).2 = portRange s e := by
    rw [port_scan_ok resolver oracle host ip s e hres]
    simp [probedPorts, scanLoopT_probed]
  refine ⟨hprobe, ?_, fun p => mem_portRange, portRange_length s e, ?_⟩
  · exact (portRange_pairwise s e).imp (fun h => ne_of_lt h)
  · intro heq
    subst heq
    rw [hprobe, portRange_single]

/-- C4 witness: a one-port request probes exactly its single port. -/
theorem scan_exhaustive_witness :
    probedPorts (port_scan rOk oEx "h4.local" 2 2).2 = portRange 2 2 ∧
    (portRange 2 2).Nodup ∧
    (∀ p : Int, p ∈ portRange 2 2 ↔ 2 ≤ p ∧ p ≤ 2) ∧
    (portRange 2 2).length = ((2 : Int) + 1 - 2).toNat ∧
    ((2 : Int) = 2 → probedPorts (port_scan rOk oEx "h4.local" 2 2).2 = [2]) :=
  scan_exhaustive rOk oEx "h4.local" "127.0.0.1" 2 2 (by decide) rfl

/-- C5: a port of the requested range is in the reported open-port list if
and only if the connect attempt to (resolved IP, port) returned 0, i.e. the
connection was established before the per-port timeout; every other outcome
(nonzero error code or a raised socket.error) keeps the port out. -/
theorem open_iff_connect_success
    (resolver : Resolver) (oracle : Oracle) (host ip : String) (s e : Int)
    (opens : List Int) (hv : ValidRange s e) (hres : resolver host = .ok ip)
    (hout : (port_scan resolver oracle host s e).1 = .done opens) :
    ∀ p ∈ portRange s e, (p ∈ opens ↔ oracle ip p = .returns 0) := by
  rw [port_scan_ok resolver oracle host ip s e hres] at hout
  have hopens : (portRange s e).filter (openPred oracle ip) = opens := by
    simpa using hout
  subst hopens
  intro p hp
  rw [List.mem_filter]
  constructor
  · rintro ⟨-, hpred⟩
    cases h : oracle ip p with
    | returns code =>
        rw [openPred, h] at hpred
        simp only [beq_iff_eq] at hpred
        rw [hpred]
    | raises =>
        rw [openPred, h] at hpred
        exact absurd hpred (by simp)
  · intro h
    exact ⟨hp, by simp [openPred, h]⟩

/-- C5 witness: in the range 3-6, port 4 (connect returns 0) is in the
result and port 5 (socket.error raised) is not — both read off the iff. -/
theorem open_iff_connect_success_witness :
    ((4 : Int) ∈ ([4] : List Int) ↔ oEx "127.0.0.1" 4 = .returns 0) ∧
    ((5 : Int) ∈ ([4] : List Int) ↔ oEx "127.0.0.1" 5 = .returns 0) :=
  ⟨open_iff_connect_success rOk oEx "h5.local" "127.0.0.1" 3 6 [4]
      (by decide) rfl (by decide) 4 (by decide),
    open_iff_connect_success rOk oEx "h5.local" "127.0.0.1" 3 6 [4]
      (by decide) rfl (by decide) 5 (by decide)⟩

/-- C6: probe-level failures are never surfaced: whatever outcome every probe
has (nonzero code or raised socket.error), a scan that passed resolution
always completes as a normal result (never a failure value, exit code 0) and
still probes the entire range. -/
theorem probe_failures_absorbed
    (resolver : Resolver) (oracle : Oracle) (host ip : String) (s e : Int)
    (hv : ValidRange s e) (hres : resolver host = .ok ip) :
    (port_scan resolver oracle host s e).1 =
      .done ((portRange s e).filter (openPred oracle ip)) ∧
    (∀ msg, (port_scan resolver oracle host s e).1 ≠ .resolveFailure msg) ∧
    exitCode (port_scan resolver oracle host s e).1 = 0 ∧
    probedPorts (port_scan resolver oracle host s e).2 = portRange s e := by
  simp [port_scan_ok resolver oracle host ip s e hres, exitCode, probedPorts,
    scanLoopT_probed]

/-- C6 witness: scanning 4-5 where port 4 is open and port 5 raises
socket.error still completes normally and probes both ports. -/
theorem probe_failures_absorbed_witness :
    (port_scan rOk oEx "h6.local" 4 5).1 =
      .done ((portRange 4 5).filter (openPred oEx "127.0.0.1")) ∧
    (∀ msg, (port_scan rOk oEx "h6.local" 4 5).1 ≠ .resolveFailure msg) ∧
    exitCode (port_scan rOk oEx "h6.local" 4 5).1 = 0 ∧
    probedPorts (port_scan rOk oEx "h6.local" 4 5).2 = portRange 4 5 :=
  probe_failures_absorbed rOk oEx "h6.local" "127.0.0.1" 4 5 (by decide) rfl

/-- C7: for any two concurrency settings ≥ 1 and any completion orders their
worker pools can produce over the same host, range and fixed network, the
aggregated open-port sequence is identical, and it coincides with what the
(sequential) source scanner reports.  The worker pool itself is modelled from
the spec, since the source code is strictly sequential. -/
theorem concurrency_invariant
    (resolver : Resolver) (oracle : Oracle) (host ip : String) (s e : Int)
    (c₁ c₂ : Nat) (sched₁ sched₂ : List Int)
    (hv : ValidRange s e) (hres : resolver host = .ok ip)
    (h₁ : PoolSchedule c₁ (portRange s e) sched₁)
    (h₂ : PoolSchedule c₂ (portRange s e) sched₂) :
    scanWithPool oracle ip sched₁ = scanWithPool oracle ip sched₂ ∧
    (port_scan resolver oracle host s e).1 = .done (scanWithPool oracle ip sched₁) := by
  have e₁ := scanWithPool_eq_filter oracle ip s e sched₁ h₁.2
  have e₂ := scanWithPool_eq_filter oracle ip s e sched₂ h₂.2
  refine ⟨e₁.trans e₂.symm, ?_⟩
  rw [port_scan_ok resolver oracle host ip s e hres, e₁]

/-- C7 witness: a pool of size 1 completing in dispatch order and a pool of
size 3 completing in the order 3,1,2 aggregate the same open-port sequence
over ports 1-3, matching the sequential scan. -/
theorem concurrency_invariant_witness :
    scanWithPool oEx "127.0.0.1" [1, 2, 3] = scanWithPool oEx "127.0.0.1" [3, 1, 2] ∧
    (port_scan rOk oEx "h7.local" 1 3).1 = .done (scanWithPool oEx "127.0.0.1" [1, 2, 3]) :=
  concurrency_invariant rOk oEx "h7.local" "127.0.0.1" 1 3 1 3 [1, 2, 3] [3, 1, 2]
    (by decide) rfl (by decide) (by decide)

/-- C8: a completed scan with zero open ports is a success — it reports the
"none found" status line and exits 0 — and this outcome is distinct from a
resolution failure, which reports a diagnostic and exits 1. -/
theorem empty_scan_success_distinct
    (resolver rBad : Resolver) (oracle : Oracle) (host ip msg : String) (s e : Int)
    (hres : resolver host = .ok ip) (hbad : rBad host = .error msg)
    (hempty : ∀ p ∈ portRange s e, ¬ openPred oracle ip p = true) :
    exitCode (port_scan resolver oracle host s e).1 = 0 ∧
    report (port_scan resolver oracle host s e).1 =
      "No open ports found in the specified range." ∧
    exitCode (port_scan rBad oracle host s e).1 = 1 ∧
    report (port_scan rBad oracle host s e).1 = "Failed to resolve host: " ++ msg ∧
    (port_scan resolver oracle host s e).1 ≠ (port_scan rBad oracle host s e).1 := by
  have hnil : (portRange s e).filter (openPred oracle ip) = [] :=
    List.filter_eq_nil_iff.mpr hempty
  simp [port_scan_ok resolver oracle host ip s e hres,
    port_scan_fail rBad oracle host msg s e hbad, hnil, exitCode, report]

/-- C8 witness: an all-closed network over ports 10-12 gives exit 0 with the
"none found" message, while a resolution failure gives exit 1 with a
diagnostic, and the two outcomes differ. -/
theorem empty_scan_success_distinct_witness :
    exitCode (port_scan rOk oAllClosed "h8.local" 10 12).1 = 0 ∧
    report (port_scan rOk oAllClosed "h8.local" 10 12).1 =
      "No open ports found in the specified range." ∧
    exitCode (port_scan rFail oAllClosed "h8.local" 10 12).1 = 1 ∧
    report (port_scan rFail oAllClosed "h8.local" 10 12).1 =
      "Failed to resolve host: " ++ "Name or service not known" ∧
    (port_scan rOk oAllClosed "h8.local" 10 12).1 ≠
      (port_scan rFail oAllClosed "h8.local" 10 12).1 :=
  empty_scan_success_distinct rOk rFail oAllClosed "h8.local" "127.0.0.1"
    "Name or service not known" 10 12 rfl rfl (by decide)

/-- C9: every probe opens exactly one socket and closes it on every exit path
(the outcome of each probe is arbitrary here), so a scan over a range of N
ports opens exactly N sockets and closes exactly N sockets. -/
theorem socket_balance
    (resolver : Resolver) (oracle : Oracle) (host ip : String) (s e : Int)
    (hv : ValidRange s e) (hres : resolver host = .ok ip) :
    (port_scan resolver oracle host s e).2.countP isSockOpen = (portRange s e).length ∧
    (port_scan resolver oracle host s e).2.countP isSockClose = (portRange s e).length ∧
    (port_scan resolver oracle host s e).2.countP isSockOpen =
      (port_scan resolver oracle host s e).2.countP isSockClose := by
  rw [port_scan_ok resolver oracle host ip s e hres]
  simp [List.countP_cons, isSockOpen, isSockClose, scanLoopT_countOpen,
    scanLoopT_countClose]

/-- C9 witness: a scan of the 4 ports 1-4 (one open, others closed or
raising) opens 4 sockets and closes 4 sockets. -/
theorem socket_balance_witness :
    (port_scan rOk oEx "h9.local" 1 4).2.countP isSockOpen = (portRange 1 4).length ∧
    (port_scan rOk oEx "h9.local" 1 4).2.countP isSockClose = (portRange 1 4).length ∧
    (port_scan rOk oEx "h9.local" 1 4).2.countP isSockOpen =
      (port_scan rOk oEx "h9.local" 1 4).2.countP isSockClose :=
  socket_balance rOk oEx "h9.local" "127.0.0.1" 1 4 (by decide) rfl

/-- C10: the scan is deterministic — its entire observable behaviour (result
and event trace, hence also the success/failure status) is a function of the
resolver and of the connect-outcome mapping restricted to the probed range:
two runs over networks that agree there coincide exactly. -/
theorem scan_deterministic
    (resolver : Resolver) (o₁ o₂ : Oracle) (host ip : String) (s e : Int)
    (hv : ValidRange s e) (hres : resolver host = .ok ip)
    (hagree : ∀ p ∈ portRange s e, o₁ ip p = o₂ ip p) :
    port_scan resolver o₁ host s e = port_scan resolver o₂ host s e := by
  simp only [port_scan, hres]
  rw [scanLoopT_congr o₁ o₂ ip (portRange s e) [] hagree]

/-- C10 witness: two networks agreeing on ports 1-3 (but differing above)
give exactly the same run over the range 1-3. -/
theorem scan_deterministic_witness :
    port_scan rOk oEx "h10.local" 1 3 = port_scan rOk oAgree "h10.local" 1 3 :=
  scan_deterministic rOk oEx oAgree "h10.local" "127.0.0.1" 1 3
    (by decide) rfl (by decide)
